import Mathlib

/-
Verification development for the cx_fast Q&A harvesting pipeline
(getQnA.py, getQnA_bs4.py, getQnA_Dy.py).

The pipeline's pure computations (title cleaning, detail-page parsing,
retry accounting, dedup lookup, persistence, and the per-run merge loop)
are embedded as executable Lean definitions, translated function by
function from the Python source.  Network responses, the HTML parser and
wall-clock timestamps are passed in as explicit oracle parameters; the
persistence store is explicit state threaded through each operation.
-/

namespace CxFast

/-- Whitespace test used by the embeddings of Python str.split with no
arguments and str.strip with no arguments (the inputs involved use only
ASCII whitespace). -/
def isWs (c : Char) : Bool :=
  c == ' ' || c == '\n' || c == '\t' || c == '\r'

/-- Test whether the list pat occurs at the head of s (used by the
embedding of str.replace to detect an occurrence of the pattern). -/
def startsWith : List Char → List Char → Bool
  | [], _ => true
  | _ :: _, [] => false
  | p :: ps, c :: cs => p == c && startsWith ps cs

/-- Embedding of Python str.replace(pat, rep): replace every
non-overlapping occurrence of pat, scanning left to right.  Structural
recursion on an explicit fuel argument; each step consumes at least one
character of s, so fuel equal to the length of s never runs out. -/
def replaceAllAux (pat rep : List Char) : Nat → List Char → List Char
  | 0, s => s
  | _ + 1, [] => []
  | fuel + 1, c :: rest =>
    if pat ≠ [] && startsWith pat (c :: rest) then
      rep ++ replaceAllAux pat rep fuel ((c :: rest).drop pat.length)
    else
      c :: replaceAllAux pat rep fuel rest

/-- Embedding of Python str.replace(pat, rep) on character lists. -/
def replaceAll (pat rep s : List Char) : List Char :=
  replaceAllAux pat rep s.length s

/-- Helper for splitWs: words accumulated so far are built in reverse. -/
def splitWsAux : List Char → List Char → List (List Char)
  | [], acc => if acc.isEmpty then [] else [acc.reverse]
  | c :: rest, acc =>
    if isWs c then
      if acc.isEmpty then splitWsAux rest [] else acc.reverse :: splitWsAux rest []
    else
      splitWsAux rest (c :: acc)

/-- Embedding of Python str.split() with no separator: split on runs of
whitespace, producing no empty words. -/
def splitWs (s : List Char) : List (List Char) :=
  splitWsAux s []

/-- Embedding of Python sep.join(words). -/
def joinWith (sep : List Char) : List (List Char) → List Char
  | [] => []
  | [w] => w
  | w :: ws => w ++ sep ++ joinWith sep ws

/-- Embedding of Python str.strip() with no arguments: drop leading and
trailing whitespace. -/
def stripChars (s : List Char) : List Char :=
  ((s.dropWhile isWs).reverse.dropWhile isWs).reverse

/-- Embedding of clean_title (identical in getQnA.py line 42, getQnA_bs4.py
line 24 and getQnA_Dy.py line 40): remove every occurrence of the token
for question, split on whitespace, join with single spaces, strip. -/
def clean_title (raw_title : String) : String :=
  String.mk (stripChars (joinWith [' '] (splitWs (replaceAll "질문".toList [] raw_title.toList))))

/-- Value of a run of decimal digit characters, embedding Python int()
applied to a digit string. -/
def digitsVal (s : List Char) : Nat :=
  s.foldl (fun n c => 10 * n + (c.toNat - 48)) 0

/-- Embedding of int(re.search(regex for one or more digits, s).group()):
the first maximal run of decimal digits in s, as a number; none when s has
no digit, in which case the Python call raises AttributeError. -/
def firstNumber : List Char → Option Nat
  | [] => none
  | c :: rest =>
    if c.isDigit then some (digitsVal (c :: rest.takeWhile Char.isDigit))
    else firstNumber rest

/-- Abstraction of the parsed detail document as seen through the CSS
selectors of scrape_detail_page: each select_one result is an optional
text, and the tag-list selector yields the texts of the matched anchors.
Fields follow getQnA_bs4.py lines 87 to 97 (identical in getQnA.py and
getQnA_Dy.py). -/
structure Doc where
  endTitleSection : Option String
  userInfoBullet : Option String
  infoItem2 : Option String
  infoItem3 : Option String
  questionDetail : Option String
  tagListAnchors : List String
deriving DecidableEq

/-- Record produced by scrape_detail_page on a successful parse
(getQnA_bs4.py lines 99 to 107). -/
structure DetailDict where
  title : String
  author : String
  views : Nat
  created_at : String
  description : String
  tags : String
  scraped_at : String
deriving DecidableEq

/-- Embedding of the parsing body of scrape_detail_page (the try block of
getQnA_bs4.py lines 86 to 110, identical in the other two variants).  A
missing element whose text is accessed raises AttributeError in Python,
caught by the handler which returns the empty dict; here each such access
is a match whose none branch yields none.  The view-count and
creation-date elements are guarded by conditionals in the source and so
default to 0 and the empty string instead of failing; a view-count element
whose text has no digit makes re.search return None and group() raise,
failing the whole parse. -/
def parseDetail (doc : Doc) (now : String) : Option DetailDict :=
  match doc.endTitleSection with
  | none => none
  | some titleTxt =>
    match doc.userInfoBullet with
    | none => none
    | some infoTxt =>
      let viewsOpt : Option Nat :=
        match doc.infoItem2 with
        | none => some 0
        | some t => firstNumber t.toList
      match viewsOpt with
      | none => none
      | some views =>
        let createdAt : String :=
          match doc.infoItem3 with
          | none => ""
          | some t => String.mk (stripChars (replaceAll "작성일".toList [] t.toList))
        match doc.questionDetail with
        | none => none
        | some descTxt =>
          some {
            title := String.mk (stripChars titleTxt.toList)
            author := String.mk (stripChars infoTxt.toList)
            views := views
            created_at := createdAt
            description := String.mk (stripChars descTxt.toList)
            tags := String.mk (joinWith ", ".toList (doc.tagListAnchors.map String.toList))
            scraped_at := now }

/-- Retry budget MAX_RETRIES from the source (all variants, line 26 of
getQnA.py). -/
def MAX_RETRIES : Nat := 3

/-- Delay RETRY_DELAY in seconds between attempts (all variants, line 27
of getQnA.py). -/
def RETRY_DELAY : Nat := 5

/-- Observable outcome of fetch_with_retry: the text returned (empty on
exhaustion), the number of GET attempts made, and the total time slept in
RETRY_DELAY units of seconds. -/
structure FetchStats where
  html : String
  attempts : Nat
  slept : Nat
deriving DecidableEq

/-- Loop of fetch_with_retry (getQnA_bs4.py lines 70 to 78): the oracle
attempt gives the outcome of the i-th GET, some body on success and none
on a transient aiohttp.ClientError; each failure sleeps RETRY_DELAY before
the next iteration (also after the last one, as in the source), and
exhaustion returns the empty string.  Attempts are strictly sequential:
the recursion performs them one after the other. -/
def fetchLoop (attempt : Nat → Option String) : Nat → Nat → Nat → FetchStats
  | 0, att, slp => ⟨"", att, slp⟩
  | k + 1, att, slp =>
    match attempt att with
    | some body => ⟨body, att + 1, slp⟩
    | none => fetchLoop attempt k (att + 1) (slp + RETRY_DELAY)

/-- Embedding of fetch_with_retry: run the loop for MAX_RETRIES
iterations starting with no attempts made and no time slept. -/
def fetch_with_retry (attempt : Nat → Option String) : FetchStats :=
  fetchLoop attempt MAX_RETRIES 0 0

/-- Embedding of scrape_detail_page (getQnA_bs4.py lines 68 to 110):
fetch with retry, return the empty dict when the html is empty, otherwise
parse.  The oracle parse stands for BeautifulSoup and now for the
datetime.now timestamp string. -/
def scrape_detail_page (attempt : Nat → Option String) (parse : String → Doc)
    (now : String) : Option DetailDict :=
  let st := fetch_with_retry attempt
  if st.html = "" then none
  else parseDetail (parse st.html) now

/-- Listing entry extracted by scrape_search_results: cleaned title,
detail url, listed date (getQnA_bs4.py line 61). -/
structure Candidate where
  title : String
  url : String
  date : String
deriving DecidableEq

/-- Merged record as assembled in the main loop and bound to the columns
or item attributes of the store: the listing row fields title, url, date
together with the detail fields, the detail's own title having been
popped before the merge (getQnA.py lines 198 to 199). -/
structure Row where
  title : String
  url : String
  date : String
  author : String
  views : Nat
  created_at : String
  description : String
  tags : String
  scraped_at : String
deriving DecidableEq

/-- Embedding of detail.pop of the title followed by the dict merge of
result and detail in main: the listing entry supplies title, url and
date, the detail dict supplies every remaining field, and the detail's
title is discarded. -/
def mergeData (r : Candidate) (d : DetailDict) : Row :=
  { title := r.title, url := r.url, date := r.date,
    author := d.author, views := d.views, created_at := d.created_at,
    description := d.description, tags := d.tags, scraped_at := d.scraped_at }

/-- Modelled from the spec: the kin_data table schema and its key
constraint are not part of the pipeline sources (the spec places table
DDL out of core scope, and the one DDL script in the repository,
delete_table.py, recreates the table for a different column layout).
Per the spec's StoredRecord invariant, url uniquely determines at most
one stored record, so the sqlite store is a list holding at most one row
per url, and INSERT OR REPLACE replaces the row with the same url. -/
abbrev SqliteStore := List Row

/-- Lookup of the stored row for a url. -/
def lookupRow (st : SqliteStore) (u : String) : Option Row :=
  st.find? (fun r => r.url == u)

/-- Embedding of url_exists (getQnA.py lines 173 to 176, identical in
getQnA_bs4.py lines 136 to 139): SELECT 1 FROM kin_data WHERE url = ?,
present when fetchone() is not None. -/
def url_exists (st : SqliteStore) (u : String) : Bool :=
  st.any (fun r => r.url == u)

/-- Replace the row holding the same url, or append when none does:
INSERT OR REPLACE keyed by url under the StoredRecord invariant. -/
def upsertRow : SqliteStore → Row → SqliteStore
  | [], row => [row]
  | r :: rest, row =>
    if r.url == row.url then row :: rest else r :: upsertRow rest row

namespace GetQnA

/-- Embedding of save_to_database of getQnA.py (lines 154 to 171): an
unconditional INSERT OR REPLACE of the merged record, with no
persistence-time existence check. -/
def save_to_database (st : CxFast.SqliteStore) (data : CxFast.Row) : CxFast.SqliteStore :=
  CxFast.upsertRow st data

end GetQnA

namespace GetQnA_bs4

/-- Embedding of save_to_database of getQnA_bs4.py (lines 112 to 134): it
first re-runs the duplicate-url SELECT and returns without writing when a
row with that url is already present; only otherwise does it INSERT OR
REPLACE the merged record. -/
def save_to_database (st : CxFast.SqliteStore) (data : CxFast.Row) : CxFast.SqliteStore :=
  if CxFast.url_exists st data.url then st else CxFast.upsertRow st data

end GetQnA_bs4

namespace GetQnA_Dy

/-- Modelled from the spec: the DynamoDB table's key schema is not in the
pipeline sources; per the spec's StoredRecord description the key-value
backend keys items by a partition and sort key pair, here url and date,
matching the Key passed by url_exists and the attributes written by
put_item.  The store holds at most one item per url-date pair. -/
abbrev DyStore := List CxFast.Row

/-- Embedding of table.get_item with a composite Key of url and date:
the item whose keys both match, if any. -/
def get_item (st : DyStore) (u d : String) : Option CxFast.Row :=
  st.find? (fun r => r.url == u && r.date == d)

/-- Embedding of url_exists of getQnA_Dy.py (lines 153 to 164): get_item
is called with the url and the placeholder sort key value some_date, and
existence is whether an Item came back. -/
def url_exists (st : DyStore) (u : String) : Bool :=
  (get_item st u "some_date").isSome

/-- Embedding of table.put_item: overwrite the item holding the same
url and date key pair, or add it when none does. -/
def put_item : DyStore → CxFast.Row → DyStore
  | [], row => [row]
  | r :: rest, row =>
    if r.url == row.url && r.date == row.date then row :: rest
    else r :: put_item rest row

/-- Embedding of save_to_dynamodb of getQnA_Dy.py (lines 136 to 151): an
unconditional put_item of the merged record. -/
def save_to_dynamodb (st : DyStore) (data : CxFast.Row) : DyStore :=
  put_item st data

end GetQnA_Dy

/-- Observable outcome of one run of main: the final store, the urls for
which a detail fetch task was created (in order), and the urls of the
listing entries whose merge was passed to the save function (in order).
The Python main itself returns None; the store is its only persistent
effect and the two url lists record its per-item fetch and save events. -/
structure RunResult (σ : Type) where
  store : σ
  fetchedUrls : List String
  savedUrls : List String
deriving DecidableEq

/-- Shared shape of the main loop of all three variants (getQnA.py lines
186 to 203): build one detail-fetch task per listing entry whose url the
dedup check reports absent, gather the task results in task order, then
zip the FULL listing against the gathered results and, for each pair
whose detail dict is non-empty, save the merge of that pair.  The dedup
check, the save function and the store type are parameters; detail is the
oracle giving scrape_detail_page's result for a url. -/
def pipelineRun {σ : Type} (exists_chk : σ → String → Bool)
    (save : σ → CxFast.Row → σ) (detail : String → Option CxFast.DetailDict)
    (listing : List CxFast.Candidate) (st : σ) : CxFast.RunResult σ :=
  let newCands := listing.filter (fun r => !(exists_chk st r.url))
  let details := newCands.map (fun r => detail r.url)
  let fin := (listing.zip details).foldl
    (fun acc p =>
      match p.2 with
      | some d => (save acc.1 (CxFast.mergeData p.1 d), acc.2 ++ [p.1.url])
      | none => acc)
    (st, [])
  ⟨fin.1, newCands.map (fun r => r.url), fin.2⟩

namespace GetQnA

/-- Embedding of main of getQnA.py (lines 178 to 209): sqlite dedup check
and unconditional INSERT OR REPLACE save. -/
def main (detail : String → Option CxFast.DetailDict)
    (listing : List CxFast.Candidate) (st : CxFast.SqliteStore) :
    CxFast.RunResult CxFast.SqliteStore :=
  CxFast.pipelineRun CxFast.url_exists save_to_database detail listing st

end GetQnA

namespace GetQnA_bs4

/-- Embedding of main of getQnA_bs4.py (lines 141 to 171): sqlite dedup
check and the save variant that skips already-present urls. -/
def main (detail : String → Option CxFast.DetailDict)
    (listing : List CxFast.Candidate) (st : CxFast.SqliteStore) :
    CxFast.RunResult CxFast.SqliteStore :=
  CxFast.pipelineRun CxFast.url_exists save_to_database detail listing st

end GetQnA_bs4

namespace GetQnA_Dy

/-- Embedding of main of getQnA_Dy.py (lines 166 to 197): DynamoDB dedup
check with the placeholder sort key and put_item save. -/
def main (detail : String → Option CxFast.DetailDict)
    (listing : List CxFast.Candidate) (st : DyStore) :
    CxFast.RunResult DyStore :=
  CxFast.pipelineRun url_exists save_to_dynamodb detail listing st

end GetQnA_Dy

end CxFast

/-
Concrete fixtures used by the claim theorems and witnesses below.
-/

/-- Stored DynamoDB item whose sort-key attribute holds a real date, for
the dedup check of the key-value variant. -/
def c1Row : CxFast.Row :=
  ⟨"t1", "u1", "2024-01-01", "author1", 3, "2024.01.01", "desc1", "tag1", "ts1"⟩

/-- Detail document whose view-count element text carries a comma
grouping separator. -/
def c2Doc : CxFast.Doc :=
  ⟨some "제목", some "작성자 정보", some "조회수 1,234", some "작성일 2024.01.01",
    some "본문", ["태그1"]⟩

/-- Record that parsing c2Doc produces. -/
def c2Rec : CxFast.DetailDict :=
  ⟨"제목", "작성자 정보", 1, "2024.01.01", "본문", "태그1", "ts"⟩

/-- First listing candidate of the misalignment run; its url is already
stored. -/
def c3CandA : CxFast.Candidate := ⟨"titleA", "urlA", "dateA"⟩

/-- Second listing candidate of the misalignment run; its url is new. -/
def c3CandB : CxFast.Candidate := ⟨"titleB", "urlB", "dateB"⟩

/-- Row already stored for the url of c3CandA before the run. -/
def c3OldRowA : CxFast.Row :=
  ⟨"titleA", "urlA", "dateA", "authA", 1, "caA", "descA", "tagsA", "tsA"⟩

/-- Detail dict the oracle returns for the url of c3CandB. -/
def c3DetailB : CxFast.DetailDict :=
  ⟨"detailTitleB", "authB", 9, "caB", "descB", "tagsB", "tsB"⟩

/-- Detail oracle of the misalignment run: both urls fetch successfully. -/
def c3Oracle : String → Option CxFast.DetailDict := fun u =>
  if u == "urlA" then some ⟨"detailTitleA", "authA2", 7, "caA2", "descA2", "tagsA2", "tsA2"⟩
  else if u == "urlB" then some c3DetailB
  else none

/-- Single listing candidate of the run-summary evaluation. -/
def c4Cand : CxFast.Candidate := ⟨"t4", "u4", "d4"⟩

/-- Detail dict for that candidate. -/
def c4Detail : CxFast.DetailDict := ⟨"dt4", "au4", 2, "ca4", "de4", "tg4", "ts4"⟩

/-- Detail oracle of the run-summary evaluation. -/
def c4Oracle : String → Option CxFast.DetailDict := fun u =>
  if u == "u4" then some c4Detail else none

/-- Row already stored under a url, for the persistence-time check. -/
def c6OldRow : CxFast.Row :=
  ⟨"old", "u6", "d6", "a6", 1, "c6", "old-desc", "g6", "s6"⟩

/-- Fresher merged record for the same url as c6OldRow. -/
def c6NewRow : CxFast.Row :=
  ⟨"new", "u6", "d6b", "a6b", 2, "c6b", "new-desc", "g6b", "s6b"⟩

/-- Detail document missing the description element. -/
def c7Doc : CxFast.Doc :=
  ⟨some "t7", some "ui7", some "조회수 5", some "작성일 d7", none, []⟩

/-- Single listing candidate of the repeated run. -/
def c8Cand : CxFast.Candidate := ⟨"t8", "u8", "2024-02-02"⟩

/-- Detail oracle of the repeated run. -/
def c8Oracle : String → Option CxFast.DetailDict := fun u =>
  if u == "u8" then some ⟨"dt8", "au8", 4, "ca8", "de8", "tg8", "ts8"⟩ else none

/-- Detail document with title, author block and description present but
no view-count and no creation-date element. -/
def c10Doc : CxFast.Doc :=
  ⟨some " 제목 ", some " 글쓴이 ", none, none, some " 본문 ", ["a", "b"]⟩

/-
Supporting lemmas about the persistence primitives.
-/

/-- After an INSERT OR REPLACE keyed by url, looking the url up finds
exactly the written row. -/
theorem lookup_upsertRow (st : CxFast.SqliteStore) (row : CxFast.Row) :
    CxFast.lookupRow (CxFast.upsertRow st row) row.url = some row := by
  induction st with
  | nil => simp [CxFast.upsertRow, CxFast.lookupRow, List.find?]
  | cons r rest ih =>
    by_cases h : r.url = row.url
    · simp [CxFast.upsertRow, CxFast.lookupRow, List.find?, h]
    · have hb : (r.url == row.url) = false := by simp [h]
      simpa [CxFast.upsertRow, CxFast.lookupRow, List.find?, hb] using ih

/-- An INSERT OR REPLACE keyed by url grows the store by one row exactly
when the url was absent, and never duplicates a url. -/
theorem length_upsertRow (st : CxFast.SqliteStore) (row : CxFast.Row) :
    (CxFast.upsertRow st row).length
      = if CxFast.url_exists st row.url then st.length else st.length + 1 := by
  induction st with
  | nil => simp [CxFast.upsertRow, CxFast.url_exists]
  | cons r rest ih =>
    by_cases h : r.url = row.url
    · simp [CxFast.upsertRow, CxFast.url_exists, h]
    · have hb : (r.url == row.url) = false := by simp [h]
      have hcons : CxFast.url_exists (r :: rest) row.url
          = CxFast.url_exists rest row.url := by
        simp [CxFast.url_exists, hb]
      have hup : CxFast.upsertRow (r :: rest) row = r :: CxFast.upsertRow rest row := by
        simp [CxFast.upsertRow, hb]
      rw [hup, List.length_cons, ih, hcons]
      cases hrest : CxFast.url_exists rest row.url <;> simp [hrest]

/-- Dedup lookup of the sqlite variants is correct: it reports a url
exactly when some stored row carries it. -/
theorem url_exists_iff_mem (st : CxFast.SqliteStore) (u : String) :
    CxFast.url_exists st u = true ↔ ∃ r ∈ st, r.url = u := by
  simp [CxFast.url_exists, List.any_eq_true]

/-- Claim C9: clean_title strips the boilerplate token and collapses all
whitespace and newlines to single spaces; on the concrete input from the
spec it returns exactly the normalized title. -/
theorem clean_title_normalizes_example :
    CxFast.clean_title "  질문 핀다 대출\n 후기  " = "핀다 대출 후기" := by
  decide

/-- Claim C1: the sqlite variants key the dedup check on the url alone and
answer correctly, but the DynamoDB variant keys its get_item on the url
together with the placeholder sort key some_date, so a url stored under
its real date is reported absent: the check returns false existence (and
so the pipeline treats the url as new) although an item with that url is
present. -/
theorem dy_dedup_misses_stored_url :
    CxFast.GetQnA_Dy.url_exists [c1Row] "u1" = false
    ∧ List.any [c1Row] (fun r => r.url == "u1") = true
    ∧ CxFast.url_exists [c1Row] "u1" = true := by
  decide

/-- Claim C2, counterexample: a successfully parsed detail page whose
view-count element text is the comma-grouped text gives views 1, not
1234: the regex takes the first maximal run of digits and the comma ends
it after the leading 1. -/
theorem views_comma_text_not_1234 :
    CxFast.parseDetail c2Doc "ts" = some c2Rec ∧ c2Rec.views ≠ 1234 := by
  decide

/-- Claim C2, amended: a successfully parsed detail page whose designated
view-count element contains the comma-grouped text yields a record whose
views field is 1, the value of the first maximal digit run of that text. -/
theorem views_comma_text_first_digit_run (doc : CxFast.Doc) (t ui d now : String)
    (ht : doc.endTitleSection = some t) (hu : doc.userInfoBullet = some ui)
    (hv : doc.infoItem2 = some "조회수 1,234") (hd : doc.questionDetail = some d) :
    ∃ rec : CxFast.DetailDict, CxFast.parseDetail doc now = some rec ∧ rec.views = 1 := by
  obtain ⟨e1, e2, e3, e4, e5, e6⟩ := doc
  dsimp only at ht hu hv hd
  subst ht; subst hu; subst hv; subst hd
  exact ⟨_, rfl, rfl⟩

/-- Claim C2, witness for the amended theorem on the concrete document. -/
theorem views_comma_text_first_digit_run_witness :
    ∃ rec : CxFast.DetailDict, CxFast.parseDetail c2Doc "ts" = some rec ∧ rec.views = 1 :=
  views_comma_text_first_digit_run c2Doc "제목" "작성자 정보" "본문" "ts" rfl rfl rfl rfl

/-- Claim C3: with a listing of two candidates where the first is already
stored and the second is new, only the second is detail-fetched, yet the
merge loop zips the fetched details against the full listing: the first
candidate takes the second one's detail, the merge is saved under the
first url with the second description, and nothing is ever saved under
the second url. -/
theorem zip_misalignment_merges_wrong_detail :
    CxFast.GetQnA.main c3Oracle [c3CandA, c3CandB] [c3OldRowA]
      = ⟨[CxFast.mergeData c3CandA c3DetailB], ["urlB"], ["urlA"]⟩
    ∧ (CxFast.mergeData c3CandA c3DetailB).url = "urlA"
    ∧ (CxFast.mergeData c3CandA c3DetailB).description = "descB"
    ∧ CxFast.url_exists
        (CxFast.GetQnA.main c3Oracle [c3CandA, c3CandB] [c3OldRowA]).store "urlB"
      = false := by
  decide

/-- Claim C4: evaluating a whole run shows that main yields only the
final store plus the per-item fetch and save events; no run-level summary
with counts listed, deduped, fetched, persisted and failed exists in its
result (the Python main returns None). -/
theorem main_returns_only_store_effects :
    CxFast.GetQnA.main c4Oracle [c4Cand] []
      = ⟨[CxFast.mergeData c4Cand c4Detail], ["u4"], ["u4"]⟩ := by
  decide

/-- Claim C5: a detail fetch whose every GET fails transiently is
attempted exactly MAX_RETRIES times, sleeps MAX_RETRIES times RETRY_DELAY
in total, which is at least (MAX_RETRIES - 1) times RETRY_DELAY, returns
the empty string, and hence scrape_detail_page yields the empty record. -/
theorem fetch_retry_exhaustion (attempt : Nat → Option String)
    (h : ∀ i, i < CxFast.MAX_RETRIES → attempt i = none) :
    CxFast.fetch_with_retry attempt
        = ⟨"", CxFast.MAX_RETRIES, CxFast.MAX_RETRIES * CxFast.RETRY_DELAY⟩
    ∧ (CxFast.MAX_RETRIES - 1) * CxFast.RETRY_DELAY
        ≤ (CxFast.fetch_with_retry attempt).slept
    ∧ ∀ parse now, CxFast.scrape_detail_page attempt parse now = none := by
  have h0 := h 0 (by decide)
  have h1 := h 1 (by decide)
  have h2 := h 2 (by decide)
  have hfe : CxFast.fetch_with_retry attempt = ⟨"", 3, 15⟩ := by
    simp [CxFast.fetch_with_retry, CxFast.fetchLoop, CxFast.MAX_RETRIES,
      CxFast.RETRY_DELAY, h0, h1, h2]
  refine ⟨hfe, ?_, ?_⟩
  · rw [hfe]; decide
  · intro parse now
    simp [CxFast.scrape_detail_page, hfe]

/-- Claim C5, witness: the always-failing oracle. -/
theorem fetch_retry_exhaustion_witness :
    CxFast.fetch_with_retry (fun _ => none)
        = ⟨"", CxFast.MAX_RETRIES, CxFast.MAX_RETRIES * CxFast.RETRY_DELAY⟩
    ∧ (CxFast.MAX_RETRIES - 1) * CxFast.RETRY_DELAY
        ≤ (CxFast.fetch_with_retry (fun _ => none)).slept
    ∧ ∀ parse now, CxFast.scrape_detail_page (fun _ => none) parse now = none :=
  fetch_retry_exhaustion (fun _ => none) (fun _ _ => rfl)

/-- Claim C6, counterexample: the bs4 variant checks existence at
persistence time and then skips a record whose url is already present,
so the fresher fetch is not written: the store keeps the old row. -/
theorem bs4_persist_skips_existing_url :
    CxFast.GetQnA_bs4.save_to_database [c6OldRow] c6NewRow = [c6OldRow]
    ∧ c6NewRow.url = c6OldRow.url
    ∧ CxFast.lookupRow (CxFast.GetQnA_bs4.save_to_database [c6OldRow] c6NewRow) "u6"
        ≠ some c6NewRow := by
  decide

/-- Claim C6, amended: the getQnA variant persists by an unconditional
INSERT OR REPLACE keyed by url with no persistence-time existence check,
so an existing url is overwritten and never duplicated, while the bs4
variant does re-check existence and then skips any record whose url is
already present, leaving the stored row unchanged, and writes only new
urls. -/
theorem persist_overwrite_and_skip_behaviour (st : CxFast.SqliteStore) (row : CxFast.Row) :
    CxFast.lookupRow (CxFast.GetQnA.save_to_database st row) row.url = some row
    ∧ (CxFast.GetQnA.save_to_database st row).length
        = (if CxFast.url_exists st row.url then st.length else st.length + 1)
    ∧ (CxFast.url_exists st row.url = true →
        CxFast.GetQnA_bs4.save_to_database st row = st)
    ∧ (CxFast.url_exists st row.url = false →
        CxFast.GetQnA_bs4.save_to_database st row = CxFast.GetQnA.save_to_database st row) := by
  refine ⟨lookup_upsertRow st row, length_upsertRow st row, ?_, ?_⟩
  · intro h
    simp [CxFast.GetQnA_bs4.save_to_database, h]
  · intro h
    simp [CxFast.GetQnA_bs4.save_to_database, CxFast.GetQnA.save_to_database, h]

/-- Claim C6, witness for the amended theorem at a concrete store. -/
theorem persist_overwrite_and_skip_behaviour_witness :
    CxFast.lookupRow (CxFast.GetQnA.save_to_database [c6OldRow] c6NewRow) c6NewRow.url
        = some c6NewRow
    ∧ CxFast.GetQnA_bs4.save_to_database [c6OldRow] c6NewRow = [c6OldRow] :=
  ⟨(persist_overwrite_and_skip_behaviour [c6OldRow] c6NewRow).1,
    (persist_overwrite_and_skip_behaviour [c6OldRow] c6NewRow).2.2.1 (by decide)⟩

/-- Claim C7: a fetched detail document missing the title section, the
author info block or the description element parses to the empty result,
never to a partially filled record. -/
theorem parse_missing_required_yields_empty (doc : CxFast.Doc) (now : String)
    (h : doc.endTitleSection = none ∨ doc.userInfoBullet = none
        ∨ doc.questionDetail = none) :
    CxFast.parseDetail doc now = none := by
  obtain ⟨e1, e2, e3, e4, e5, e6⟩ := doc
  rcases h with h | h | h
  · dsimp only at h; subst h; rfl
  · dsimp only at h; subst h
    cases e1 <;> rfl
  · dsimp only at h; subst h
    cases e1 with
    | none => rfl
    | some t =>
      cases e2 with
      | none => rfl
      | some ui =>
        cases e3 with
        | none => rfl
        | some v =>
          simp only [CxFast.parseDetail]
          split <;> rfl

/-- Claim C7, witness: a document missing only the description element
parses to the empty result. -/
theorem parse_missing_required_yields_empty_witness :
    CxFast.parseDetail c7Doc "ts" = none :=
  parse_missing_required_yields_empty c7Doc "ts" (Or.inr (Or.inr rfl))

/-- Claim C8: in the DynamoDB variant, a second run over the unchanged
listing re-fetches and re-saves a url that the first run already
persisted, because the dedup check keyed on the placeholder sort key
never finds it: the second run creates a detail-fetch task and performs a
put_item for the very url whose item is in the store. -/
theorem dynamo_second_run_refetches :
    (CxFast.GetQnA_Dy.main c8Oracle [c8Cand]
        (CxFast.GetQnA_Dy.main c8Oracle [c8Cand] []).store).fetchedUrls = ["u8"]
    ∧ (CxFast.GetQnA_Dy.main c8Oracle [c8Cand]
        (CxFast.GetQnA_Dy.main c8Oracle [c8Cand] []).store).savedUrls = ["u8"]
    ∧ List.any (CxFast.GetQnA_Dy.main c8Oracle [c8Cand] []).store
        (fun r => r.url == "u8") = true := by
  decide

/-- Claim C10: when the title section, author info block and description
parse successfully, a missing view-count element and a missing
creation-date element do not empty the result: the record is returned
with views defaulted to 0 and created_at defaulted to the empty string. -/
theorem parse_optional_elements_default (doc : CxFast.Doc) (now t ui d : String)
    (ht : doc.endTitleSection = some t) (hu : doc.userInfoBullet = some ui)
    (hv : doc.infoItem2 = none) (hc : doc.infoItem3 = none)
    (hd : doc.questionDetail = some d) :
    CxFast.parseDetail doc now = some
      { title := String.mk (CxFast.stripChars t.toList)
        author := String.mk (CxFast.stripChars ui.toList)
        views := 0
        created_at := ""
        description := String.mk (CxFast.stripChars d.toList)
        tags := String.mk (CxFast.joinWith ", ".toList (doc.tagListAnchors.map String.toList))
        scraped_at := now } := by
  obtain ⟨e1, e2, e3, e4, e5, e6⟩ := doc
  dsimp only at ht hu hv hc hd ⊢
  subst ht; subst hu; subst hv; subst hc; subst hd
  rfl

/-- Claim C10, witness on a concrete document with both optional
elements absent. -/
theorem parse_optional_elements_default_witness :
    CxFast.parseDetail c10Doc "now" = some ⟨"제목", "글쓴이", 0, "", "본문", "a, b", "now"⟩ :=
  (parse_optional_elements_default c10Doc "now" " 제목 " " 글쓴이 " " 본문 "
    rfl rfl rfl rfl rfl).trans (by decide)
